import Mathlib

/-!
Shallow embedding of `src/clock++.hpp` (Clock++, a single-header C++11
timing utility), together with proofs of its specification claims.

Modelling choices, each tied to a construct of the source:

* `TimePoint` (`std::chrono::time_point<high_resolution_clock>`) is an `Int`
  counting nanoseconds; the value-initialized `TimePoint{}` is `0`.  Every
  operation that calls `Clock::now()` receives the value that call returns
  as an explicit parameter (`now`, `end_`, `t_start`, `t_end`), so monotonicity
  of the clock is a hypothesis, never an assumption baked into a definition.
* `std::unordered_map` is an association list with the `operator[]`
  semantics of the source: reading through `operator[]` default-constructs
  and inserts a value when the key is absent (`aupdate` with a default).
  Hash order is irrelevant: the registry is only observed through lookups.
* The ambient thread identity (what `pthread_self()` returns when
  `_PTHREAD_H` is defined) is an explicit `Option Int` parameter:
  `some t` models a pthreads build on a thread with id `t`, `none` models
  the build without pthreads, where `get_thread_id` returns `0`.
* `fprintf(stderr, ...)` appends a structured `Report` to an output trace
  carried in `ClockState`; `render` reproduces the exact format strings,
  with the `%u`, `%lx` and `%lu` conversions modelled by reduction
  mod 2^32 resp. 2^64.  The C++ `long` result of `.count()` converted to
  the `unsigned long long` return type is modelled by `toULL`.
* C++ exceptions thrown by the callable measured by `clock_func` are
  modelled with `Except`: the callable returns `Except ε β`, and
  `clock_func` returns `Except ε (Nat × ClockState)` — an `Except.error`
  result is an exception propagating out of `clock_func`.
* `alignas(64)` padding of `Timer` is a memory-layout hint with no
  functional content and is not modelled.
* Strings are `String` over `Char`; the 128-byte `snprintf` buffer of
  `get_location` truncates to 127 characters (the 128th byte is the NUL
  terminator).  For the ASCII file and function names the claims are
  about, bytes and characters coincide.
-/

/-- The C++ `struct alignas(64) Timer { TimePoint m_time; int m_line; };` -/
structure Timer where
  m_time : Int
  m_line : Int
deriving Repr, DecidableEq

/-- One line written to `stderr`: either the report of `clock_stop`
(format `"[CLOCK]\t%s\tlines %u-%u [thread %lx]:\t%lu ns\n"`) or the
report of `clock_func` (format `"[CLOCK]\t%s\tline %u [thread %lx]:\t%lu ns\n"`). -/
inductive Report where
  | stop (location : String) (start_line stop_line : Int) (thread_id : Int) (ns : Nat)
  | func (location : String) (line : Int) (thread_id : Int) (ns : Nat)
deriving Repr, DecidableEq

/-- A `std::stack<Timer>`; the head of the list is the top of the stack. -/
abbrev Stack := List Timer

/-- Inner map `std::unordered_map<long int, std::stack<Timer>>`. -/
abbrev ThreadMap := List (Int × Stack)

/-- Outer map `std::unordered_map<std::string, std::unordered_map<long int, std::stack<Timer>>>`. -/
abbrev Registry := List (String × ThreadMap)

/-- Process state: the registry `s_start_times` plus the trace of report
lines written to `stderr` so far. -/
structure ClockState where
  s_start_times : Registry
  output : List Report
deriving Repr, DecidableEq

/-- Lookup in an association list (the read part of `unordered_map` access). -/
def alookup {α β : Type} [DecidableEq α] (k : α) : List (α × β) → Option β
  | [] => none
  | (k', v) :: rest => if k' = k then some v else alookup k rest

/-- Access `m[k]` followed by mutating the referenced value with `f`:
`operator[]` default-constructs (`d`) and inserts when `k` is absent. -/
def aupdate {α β : Type} [DecidableEq α] (k : α) (d : β) (f : β → β) :
    List (α × β) → List (α × β)
  | [] => [(k, f d)]
  | (k', v) :: rest =>
      if k' = k then (k', f v) :: rest else (k', v) :: aupdate k d f rest

/-- The stack `s_start_times[location][thread_id]` reads as: empty when
either level of the map lacks its key. -/
def find2 (location : String) (thread_id : Int) (reg : Registry) : Stack :=
  (alookup thread_id ((alookup location reg).getD [])).getD []

/-- The stack `s_start_times[location][thread_id]` mutated by `f`, inserting
default-constructed entries at both levels when absent. -/
def update2 (location : String) (thread_id : Int) (f : Stack → Stack)
    (reg : Registry) : Registry :=
  aupdate location [] (fun m => aupdate thread_id [] f m) reg

/-- Source `get_location`: `snprintf(buff, 128, "%s::%s", file, function)` —
the concatenation truncated to the first 127 characters (the buffer's
128th byte holds the NUL terminator). -/
def get_location (file : String) (function : String) : String :=
  ((file ++ "::" ++ function).toList.take 127).asString

/-- Source `get_thread_id`: `pthread_self()` when pthreads are available
(`pthread_self_val = some t`), otherwise `0`. -/
def get_thread_id (pthread_self_val : Option Int) : Int :=
  match pthread_self_val with
  | some t => t
  | none => 0

/-- Conversion of a signed 64-bit quantity to `unsigned long long`
(also what `%lu`/`%lx` print): reduction mod 2^64. -/
def toULL (i : Int) : Nat := (i % (2 ^ 64 : Int)).toNat

/-- What `%u` prints for an `int` argument: reduction mod 2^32. -/
def toUInt32Nat (i : Int) : Nat := (i % (2 ^ 32 : Int)).toNat

/-- Lowercase hexadecimal rendering (`%lx`). -/
def hexStr (n : Nat) : String := (Nat.toDigits 16 n).asString

/-- The exact text of the two `fprintf` format strings, instantiated. -/
def render : Report → String
  | .stop location s e tid ns =>
      "[CLOCK]\t" ++ location ++ "\tlines " ++ toString (toUInt32Nat s) ++ "-"
        ++ toString (toUInt32Nat e) ++ " [thread " ++ hexStr (toULL tid)
        ++ "]:\t" ++ toString ns ++ " ns\n"
  | .func location l tid ns =>
      "[CLOCK]\t" ++ location ++ "\tline " ++ toString (toUInt32Nat l)
        ++ " [thread " ++ hexStr (toULL tid) ++ "]:\t" ++ toString ns ++ " ns\n"

/-- Source `clock_start(file, function, line)`.  `pt` is the ambient pthread
identity, `now` the value `Clock::now()` returns during the call.  The
source first emplaces `Timer{TimePoint{}, line}` and then assigns
`start_times.top().m_time = Clock::now()`; both steps are kept. -/
def clock_start (file : String) (function : String) (line : Int)
    (pt : Option Int) (now : Int) (st : ClockState) : ClockState :=
  let thread_id := get_thread_id pt
  let location := get_location file function
  let reg1 := update2 location thread_id
    (fun s => { m_time := 0, m_line := line } :: s) st.s_start_times
  let reg2 := update2 location thread_id
    (fun s => match s with
      | [] => []
      | t :: r => { t with m_time := now } :: r) reg1
  { st with s_start_times := reg2 }

/-- Source `clock_stop(file, function, line)`.  `end_` is the value `Clock::now()`
returns at entry.  `auto & start_times = s_start_times[location][thread_id]`
inserts default entries at both levels even when the stack turns out
empty (hence the unconditional `update2 … id`). -/
def clock_stop (file : String) (function : String) (line : Int)
    (pt : Option Int) (end_ : Int) (st : ClockState) : Nat × ClockState :=
  let thread_id := get_thread_id pt
  let location := get_location file function
  let reg := update2 location thread_id id st.s_start_times
  match find2 location thread_id reg with
  | [] => (0, { st with s_start_times := reg })
  | start :: _ =>
      let diff := toULL (end_ - start.m_time)
      let r := Report.stop location start.m_line line thread_id diff
      (diff, { s_start_times := update2 location thread_id List.tail reg,
               output := st.output ++ [r] })

/-- The test `strchr(s, c) != nullptr`. -/
def strchr_found (s : String) (c : Char) : Bool := s.toList.contains c

/-- Source `clock_func(callable, file, line, f_name, params...)`.  The callable
takes its (bound) parameters `params : γ` and either throws (`Except.error`)
or returns a value of type `β` that `std::function<void()>` discards.
`t_start`/`t_end` are the two `Clock::now()` results around the call; the
second is never taken when the callable throws, and neither is the report
emitted. -/
def clock_func {γ β ε : Type} (callable : γ → Except ε β) (file : String)
    (line : Int) (f_name : String) (params : γ) (pt : Option Int)
    (t_start : Int) (t_end : Int) (st : ClockState) :
    Except ε (Nat × ClockState) :=
  let is_lambda := strchr_found f_name '['
  let thread_id := get_thread_id pt
  let location := get_location file (if is_lambda then "lambda()" else f_name)
  let func : Unit → Except ε Unit := fun _ => (callable params).map (fun _ => ())
  match func () with
  | .error e => .error e
  | .ok _ =>
      let diff := toULL (t_end - t_start)
      let r := Report.func location line thread_id diff
      .ok (diff, { st with output := st.output ++ [r] })

/-- Key present at the outer (call-site) level of the registry. -/
def hasLocation (location : String) (reg : Registry) : Bool :=
  (alookup location reg).isSome

/-- Key present at both levels: the per-thread stack exists. -/
def hasThread (location : String) (thread_id : Int) (reg : Registry) : Bool :=
  (alookup thread_id ((alookup location reg).getD [])).isSome

/-- A 127-character file name, long enough to exhaust `get_location`'s
`snprintf` buffer by itself. -/
def longFileName : String := (List.replicate 127 'a').asString

theorem alookup_aupdate_self {α β : Type} [DecidableEq α] (k : α) (d : β)
    (f : β → β) (m : List (α × β)) :
    alookup k (aupdate k d f m) = some (f ((alookup k m).getD d)) := by
  induction m with
  | nil => simp [alookup, aupdate]
  | cons hd tl ih =>
      obtain ⟨k', v⟩ := hd
      by_cases h : k' = k <;> simp [alookup, aupdate, h, ih]

theorem alookup_aupdate_of_ne {α β : Type} [DecidableEq α] {k j : α}
    (h : j ≠ k) (d : β) (f : β → β) (m : List (α × β)) :
    alookup j (aupdate k d f m) = alookup j m := by
  induction m with
  | nil => simp [alookup, aupdate, Ne.symm h]
  | cons hd tl ih =>
      obtain ⟨k', v⟩ := hd
      by_cases hk : k' = k
      · subst hk
        simp [alookup, aupdate, Ne.symm h]
      · by_cases hj : k' = j <;> simp [alookup, aupdate, hk, hj, h, ih]

theorem isSome_alookup_aupdate {α β : Type} [DecidableEq α] (k j : α)
    (d : β) (f : β → β) (m : List (α × β))
    (h : (alookup j m).isSome = true) :
    (alookup j (aupdate k d f m)).isSome = true := by
  by_cases hjk : j = k
  · subst hjk
    rw [alookup_aupdate_self]
    rfl
  · rw [alookup_aupdate_of_ne hjk]
    exact h

theorem aupdate_of_alookup_eq_none {α β : Type} [DecidableEq α] {k : α}
    (d : β) (f : β → β) {m : List (α × β)} (h : alookup k m = none) :
    aupdate k d f m = m ++ [(k, f d)] := by
  induction m with
  | nil => simp [aupdate]
  | cons hd tl ih =>
      obtain ⟨k', v⟩ := hd
      by_cases hk : k' = k
      · simp [alookup, hk] at h
      · simp only [alookup, hk, if_false] at h
        simp [aupdate, hk, ih h]

theorem alookup_append_single_self {α β : Type} [DecidableEq α] {k : α}
    (v : β) {m : List (α × β)} (h : alookup k m = none) :
    alookup k (m ++ [(k, v)]) = some v := by
  induction m with
  | nil => simp [alookup]
  | cons hd tl ih =>
      obtain ⟨k', v'⟩ := hd
      by_cases hk : k' = k
      · simp [alookup, hk] at h
      · simp only [alookup, hk, if_false] at h
        simp [alookup, hk, ih h]

theorem find2_update2_self (L : String) (T : Int) (f : Stack → Stack)
    (reg : Registry) :
    find2 L T (update2 L T f reg) = f (find2 L T reg) := by
  unfold find2 update2
  rw [alookup_aupdate_self]
  simp only [Option.getD_some]
  rw [alookup_aupdate_self]
  simp

theorem find2_update2_of_ne (L : String) (T : Int) (L' : String) (T' : Int)
    (f : Stack → Stack) (reg : Registry) (h : ¬(L' = L ∧ T' = T)) :
    find2 L' T' (update2 L T f reg) = find2 L' T' reg := by
  unfold find2 update2
  by_cases hL : L' = L
  · subst hL
    have hT : T' ≠ T := fun hT => h ⟨rfl, hT⟩
    rw [alookup_aupdate_self]
    simp only [Option.getD_some]
    rw [alookup_aupdate_of_ne hT]
  · rw [alookup_aupdate_of_ne hL]

theorem find2_update2 (L : String) (T : Int) (L' : String) (T' : Int)
    (f : Stack → Stack) (reg : Registry) :
    find2 L' T' (update2 L T f reg)
      = if L' = L ∧ T' = T then f (find2 L T reg) else find2 L' T' reg := by
  by_cases h : L' = L ∧ T' = T
  · obtain ⟨h1, h2⟩ := h
    subst h1; subst h2
    simp [find2_update2_self]
  · simp [h, find2_update2_of_ne L T L' T' f reg h]

theorem find2_update2_id (L : String) (T : Int) (L' : String) (T' : Int)
    (reg : Registry) :
    find2 L' T' (update2 L T id reg) = find2 L' T' reg := by
  rw [find2_update2]
  by_cases h : L' = L ∧ T' = T
  · obtain ⟨h1, h2⟩ := h
    subst h1; subst h2
    simp
  · simp [h]

theorem hasLocation_update2 (L L0 : String) (T0 : Int) (f : Stack → Stack)
    (reg : Registry) (h : hasLocation L reg = true) :
    hasLocation L (update2 L0 T0 f reg) = true := by
  unfold hasLocation update2 at *
  exact isSome_alookup_aupdate L0 L [] _ reg h

theorem hasThread_update2 (L : String) (T : Int) (L0 : String) (T0 : Int)
    (f : Stack → Stack) (reg : Registry) (h : hasThread L T reg = true) :
    hasThread L T (update2 L0 T0 f reg) = true := by
  unfold hasThread update2 at *
  by_cases hL : L = L0
  · subst hL
    rw [alookup_aupdate_self]
    simp only [Option.getD_some]
    exact isSome_alookup_aupdate T0 T [] f _ h
  · rw [alookup_aupdate_of_ne hL]
    exact h

theorem tail_isSuffix {α : Type} (l : List α) : l.tail <:+ l := by
  cases l with
  | nil => exact List.suffix_refl []
  | cons a t => exact ⟨[a], rfl⟩

theorem find2_clock_start (file function : String) (line : Int)
    (pt : Option Int) (now : Int) (st : ClockState) (L' : String) (T' : Int) :
    find2 L' T' (clock_start file function line pt now st).s_start_times
      = if L' = get_location file function ∧ T' = get_thread_id pt
        then { m_time := now, m_line := line }
               :: find2 (get_location file function) (get_thread_id pt) st.s_start_times
        else find2 L' T' st.s_start_times := by
  unfold clock_start
  simp only
  by_cases h : L' = get_location file function ∧ T' = get_thread_id pt
  · obtain ⟨h1, h2⟩ := h
    subst h1
    subst h2
    rw [find2_update2_self, find2_update2_self]
    simp
  · rw [find2_update2_of_ne _ _ _ _ _ _ h, find2_update2_of_ne _ _ _ _ _ _ h]
    simp [h]

theorem clock_stop_spec (file function : String) (line : Int)
    (pt : Option Int) (end_ : Int) (st : ClockState) :
    clock_stop file function line pt end_ st
      = match find2 (get_location file function) (get_thread_id pt) st.s_start_times with
        | [] =>
            (0, { st with s_start_times :=
                    update2 (get_location file function) (get_thread_id pt) id st.s_start_times })
        | start :: _ =>
            (toULL (end_ - start.m_time),
             { s_start_times :=
                 update2 (get_location file function) (get_thread_id pt) List.tail
                   (update2 (get_location file function) (get_thread_id pt) id st.s_start_times),
               output := st.output
                 ++ [Report.stop (get_location file function) start.m_line line
                       (get_thread_id pt) (toULL (end_ - start.m_time))] }) := by
  unfold clock_stop
  simp only [find2_update2_self, id]

/-- C1: a stop operation on a (call-site, thread) key whose stack of
in-flight timing intervals is empty returns exactly 0 and emits no report
line to the diagnostic stream. -/
theorem clock_stop_unmatched (file function : String) (line : Int)
    (pt : Option Int) (end_ : Int) (st : ClockState)
    (h : find2 (get_location file function) (get_thread_id pt) st.s_start_times = []) :
    (clock_stop file function line pt end_ st).1 = 0
      ∧ (clock_stop file function line pt end_ st).2.output = st.output := by
  rw [clock_stop_spec, h]
  exact ⟨rfl, rfl⟩

theorem clock_stop_unmatched_witness :
    (clock_stop "a.cpp" "int main()" 12 none 100 ⟨[], []⟩).1 = 0
      ∧ (clock_stop "a.cpp" "int main()" 12 none 100 ⟨[], []⟩).2.output = [] :=
  clock_stop_unmatched "a.cpp" "int main()" 12 none 100 ⟨[], []⟩ rfl

/-- C2: a stop operation on a key whose stack is non-empty pops exactly the
most recently pushed timing interval, returns the elapsed time (now minus
that interval's start timestamp), which is ≥ 0 when the clock is monotonic,
and emits exactly one report line carrying the call-site identity, the
interval's start line, the stop line, the thread identity and the elapsed
nanoseconds. -/
theorem clock_stop_matched (file function : String) (line : Int)
    (pt : Option Int) (end_ : Int) (st : ClockState) (t : Timer) (rest : Stack)
    (hstk : find2 (get_location file function) (get_thread_id pt) st.s_start_times
      = t :: rest)
    (hmono : t.m_time ≤ end_) (hfit : end_ - t.m_time < 2 ^ 64) :
    0 ≤ end_ - t.m_time
      ∧ ((clock_stop file function line pt end_ st).1 : Int) = end_ - t.m_time
      ∧ find2 (get_location file function) (get_thread_id pt)
          (clock_stop file function line pt end_ st).2.s_start_times = rest
      ∧ (clock_stop file function line pt end_ st).2.output
          = st.output ++ [Report.stop (get_location file function) t.m_line line
              (get_thread_id pt) (clock_stop file function line pt end_ st).1] := by
  have h0 : 0 ≤ end_ - t.m_time := by omega
  refine ⟨h0, ?_, ?_, ?_⟩
  · rw [clock_stop_spec, hstk]
    simp only [toULL]
    rw [Int.emod_eq_of_lt h0 hfit, Int.toNat_of_nonneg h0]
  · rw [clock_stop_spec, hstk]
    simp only
    rw [find2_update2_self, find2_update2_self]
    rw [hstk]
    rfl
  · rw [clock_stop_spec, hstk]

theorem clock_stop_matched_witness :
    0 ≤ (110 : Int) - (Timer.mk 10 3).m_time
      ∧ ((clock_stop "a.cpp" "int main()" 12 none 110
            ⟨[("a.cpp::int main()", [(0, [⟨10, 3⟩])])], []⟩).1 : Int)
          = 110 - (Timer.mk 10 3).m_time
      ∧ find2 (get_location "a.cpp" "int main()") (get_thread_id none)
          (clock_stop "a.cpp" "int main()" 12 none 110
            ⟨[("a.cpp::int main()", [(0, [⟨10, 3⟩])])], []⟩).2.s_start_times = []
      ∧ (clock_stop "a.cpp" "int main()" 12 none 110
            ⟨[("a.cpp::int main()", [(0, [⟨10, 3⟩])])], []⟩).2.output
          = (ClockState.mk [("a.cpp::int main()", [(0, [⟨10, 3⟩])])] []).output
              ++ [Report.stop (get_location "a.cpp" "int main()") (Timer.mk 10 3).m_line 12
                    (get_thread_id none)
                    (clock_stop "a.cpp" "int main()" 12 none 110
                      ⟨[("a.cpp::int main()", [(0, [⟨10, 3⟩])])], []⟩).1] :=
  clock_stop_matched "a.cpp" "int main()" 12 none 110
    ⟨[("a.cpp::int main()", [(0, [⟨10, 3⟩])])], []⟩ ⟨10, 3⟩ []
    (by decide) (by decide) (by decide)

/-- C9: a stop operation on a call-site key absent from the registry is not
state-neutral: it returns 0 and emits nothing, but inserts a fresh
per-call-site entry holding an empty per-thread stack, which then persists. -/
theorem clock_stop_inserts (file function : String) (line : Int)
    (pt : Option Int) (end_ : Int) (st : ClockState)
    (h : alookup (get_location file function) st.s_start_times = none) :
    (clock_stop file function line pt end_ st).1 = 0
      ∧ (clock_stop file function line pt end_ st).2.output = st.output
      ∧ (clock_stop file function line pt end_ st).2.s_start_times
          = st.s_start_times ++ [(get_location file function, [(get_thread_id pt, [])])]
      ∧ hasThread (get_location file function) (get_thread_id pt)
          (clock_stop file function line pt end_ st).2.s_start_times = true := by
  have hf : find2 (get_location file function) (get_thread_id pt) st.s_start_times = [] := by
    unfold find2
    rw [h]
    rfl
  have hreg : (clock_stop file function line pt end_ st).2.s_start_times
      = st.s_start_times ++ [(get_location file function, [(get_thread_id pt, [])])] := by
    rw [clock_stop_spec, hf]
    simp only
    unfold update2
    rw [aupdate_of_alookup_eq_none _ _ h]
    rfl
  refine ⟨?_, ?_, hreg, ?_⟩
  · rw [clock_stop_spec, hf]
  · rw [clock_stop_spec, hf]
  · rw [hreg]
    unfold hasThread
    rw [alookup_append_single_self _ h]
    simp [alookup]

theorem clock_stop_inserts_witness :
    (clock_stop "a.cpp" "int main()" 12 none 100 ⟨[], []⟩).1 = 0
      ∧ (clock_stop "a.cpp" "int main()" 12 none 100 ⟨[], []⟩).2.output = []
      ∧ (clock_stop "a.cpp" "int main()" 12 none 100 ⟨[], []⟩).2.s_start_times
          = [] ++ [(get_location "a.cpp" "int main()", [(get_thread_id none, [])])]
      ∧ hasThread (get_location "a.cpp" "int main()") (get_thread_id none)
          (clock_stop "a.cpp" "int main()" 12 none 100 ⟨[], []⟩).2.s_start_times = true :=
  clock_stop_inserts "a.cpp" "int main()" 12 none 100 ⟨[], []⟩ rfl

/-- C4 counterexample: `get_location` truncates to the 128-byte `snprintf`
buffer, so with a 127-character file name the two distinct call sites
`(longFileName, "f")` and `(longFileName, "g")` receive the same identity
even though their concatenations differ, and the identity is not the
concatenation. -/
theorem get_location_truncation_collision :
    get_location longFileName "f" = get_location longFileName "g"
      ∧ longFileName ++ "::" ++ "f" ≠ longFileName ++ "::" ++ "g"
      ∧ get_location longFileName "f" ≠ longFileName ++ "::" ++ "f" := by
  decide

/-- C4 amended: the identity is the concatenation truncated to 127
characters; whenever the concatenations fit in the buffer (length ≤ 127),
the identity is exactly `file ++ "::" ++ function` and two call sites
collide only when the concatenations are literally equal. -/
theorem get_location_short (file function file' function' : String)
    (h : (file ++ "::" ++ function).length ≤ 127)
    (h' : (file' ++ "::" ++ function').length ≤ 127) :
    get_location file function = file ++ "::" ++ function
      ∧ (get_location file function = get_location file' function'
           ↔ file ++ "::" ++ function = file' ++ "::" ++ function') := by
  have key : ∀ (a b : String), (a ++ "::" ++ b).length ≤ 127 →
      get_location a b = a ++ "::" ++ b := by
    intro a b hab
    have hlen : (a ++ "::" ++ b).toList.length ≤ 127 := hab
    unfold get_location
    rw [List.take_of_length_le hlen, String.asString_toList]
  refine ⟨key _ _ h, ?_, ?_⟩
  · intro heq
    rw [key _ _ h, key _ _ h'] at heq
    exact heq
  · intro heq
    rw [key _ _ h, key _ _ h', heq]

theorem get_location_short_witness :
    ("a.cpp" ++ "::" ++ "int main()").length ≤ 127
      ∧ (get_location "a.cpp" "int main()" = "a.cpp" ++ "::" ++ "int main()"
           ∧ (get_location "a.cpp" "int main()" = get_location "b.cpp" "int main()"
                ↔ "a.cpp" ++ "::" ++ "int main()" = "b.cpp" ++ "::" ++ "int main()")) :=
  ⟨by decide, get_location_short "a.cpp" "int main()" "b.cpp" "int main()"
    (by decide) (by decide)⟩

theorem clock_stop_reg_cases (file function : String) (line : Int)
    (pt : Option Int) (end_ : Int) (st : ClockState) :
    (clock_stop file function line pt end_ st).2.s_start_times
        = update2 (get_location file function) (get_thread_id pt) id st.s_start_times
      ∨ (clock_stop file function line pt end_ st).2.s_start_times
        = update2 (get_location file function) (get_thread_id pt) List.tail
            (update2 (get_location file function) (get_thread_id pt) id st.s_start_times) := by
  cases hstk : find2 (get_location file function) (get_thread_id pt) st.s_start_times with
  | nil =>
      left
      rw [clock_stop_spec, hstk]
  | cons t rest =>
      right
      rw [clock_stop_spec, hstk]

theorem find2_clock_stop_suffix (file function : String) (line : Int)
    (pt : Option Int) (end_ : Int) (st : ClockState) (L' : String) (T' : Int) :
    find2 L' T' (clock_stop file function line pt end_ st).2.s_start_times
      <:+ find2 L' T' st.s_start_times := by
  rcases clock_stop_reg_cases file function line pt end_ st with h | h
  · rw [h, find2_update2_id]
  · rw [h, find2_update2]
    by_cases hk : L' = get_location file function ∧ T' = get_thread_id pt
    · obtain ⟨h1, h2⟩ := hk
      subst h1
      subst h2
      rw [if_pos ⟨rfl, rfl⟩, find2_update2_id]
      exact tail_isSuffix _
    · rw [if_neg hk, find2_update2_id]

/-- C5: a start operation pushes a Timer whose timestamp and line are fixed
at that moment (`now`, `line`), touching no other stack; and no later
operation rewrites a stored Timer — a stop leaves every stack a literal
suffix of what it was (it only pops), so every Timer still stored is
unchanged between its push and its pop. -/
theorem timer_immutable (file function : String) (line : Int)
    (pt : Option Int) (now : Int) (st : ClockState) :
    (∀ (L' : String) (T' : Int),
        find2 L' T' (clock_start file function line pt now st).s_start_times
          = if L' = get_location file function ∧ T' = get_thread_id pt
            then { m_time := now, m_line := line }
                   :: find2 (get_location file function) (get_thread_id pt) st.s_start_times
            else find2 L' T' st.s_start_times)
      ∧ (∀ (file' function' : String) (line' : Int) (pt' : Option Int)
            (end_ : Int) (st' : ClockState) (L' : String) (T' : Int),
          find2 L' T' (clock_stop file' function' line' pt' end_ st').2.s_start_times
            <:+ find2 L' T' st'.s_start_times) :=
  ⟨fun L' T' => find2_clock_start file function line pt now st L' T',
   fun file' function' line' pt' end_ st' L' T' =>
     find2_clock_stop_suffix file' function' line' pt' end_ st' L' T'⟩

/-- C3: nested starts on one (call-site, thread) key resolve in LIFO order:
after start A (line `lA`, time `tA`) and start B (line `lB`, time `tB`),
the first stop pops and reports exactly interval B, leaving A on top, and
the second stop pops and reports exactly interval A, restoring the stack. -/
theorem clock_lifo (file function : String) (lA lB lC lD : Int)
    (pt : Option Int) (tA tB tC tD : Int) (st : ClockState) :
    (clock_stop file function lC pt tC
        (clock_start file function lB pt tB
          (clock_start file function lA pt tA st))).2.output
      = st.output ++ [Report.stop (get_location file function) lB lC
          (get_thread_id pt) (toULL (tC - tB))]
    ∧ find2 (get_location file function) (get_thread_id pt)
        (clock_stop file function lC pt tC
          (clock_start file function lB pt tB
            (clock_start file function lA pt tA st))).2.s_start_times
      = { m_time := tA, m_line := lA }
          :: find2 (get_location file function) (get_thread_id pt) st.s_start_times
    ∧ (clock_stop file function lD pt tD
        (clock_stop file function lC pt tC
          (clock_start file function lB pt tB
            (clock_start file function lA pt tA st))).2).2.output
      = st.output ++ [Report.stop (get_location file function) lB lC
            (get_thread_id pt) (toULL (tC - tB)),
          Report.stop (get_location file function) lA lD
            (get_thread_id pt) (toULL (tD - tA))]
    ∧ find2 (get_location file function) (get_thread_id pt)
        (clock_stop file function lD pt tD
          (clock_stop file function lC pt tC
            (clock_start file function lB pt tB
              (clock_start file function lA pt tA st))).2).2.s_start_times
      = find2 (get_location file function) (get_thread_id pt) st.s_start_times := by
  have hst1 : find2 (get_location file function) (get_thread_id pt)
      (clock_start file function lA pt tA st).s_start_times
        = { m_time := tA, m_line := lA }
            :: find2 (get_location file function) (get_thread_id pt) st.s_start_times := by
    rw [find2_clock_start]
    simp
  have hst2 : find2 (get_location file function) (get_thread_id pt)
      (clock_start file function lB pt tB
        (clock_start file function lA pt tA st)).s_start_times
        = { m_time := tB, m_line := lB } :: { m_time := tA, m_line := lA }
            :: find2 (get_location file function) (get_thread_id pt) st.s_start_times := by
    rw [find2_clock_start]
    simp [hst1]
  have hstop1 : clock_stop file function lC pt tC
      (clock_start file function lB pt tB (clock_start file function lA pt tA st))
        = (toULL (tC - tB),
           { s_start_times :=
               update2 (get_location file function) (get_thread_id pt) List.tail
                 (update2 (get_location file function) (get_thread_id pt) id
                   (clock_start file function lB pt tB
                     (clock_start file function lA pt tA st)).s_start_times),
             output := st.output ++ [Report.stop (get_location file function) lB lC
               (get_thread_id pt) (toULL (tC - tB))] }) := by
    rw [clock_stop_spec, hst2]
    rfl
  have hfind3 : find2 (get_location file function) (get_thread_id pt)
      (clock_stop file function lC pt tC
        (clock_start file function lB pt tB
          (clock_start file function lA pt tA st))).2.s_start_times
        = { m_time := tA, m_line := lA }
            :: find2 (get_location file function) (get_thread_id pt) st.s_start_times := by
    rw [hstop1]
    simp only
    rw [find2_update2_self, find2_update2_self, hst2]
    rfl
  have hstop2 : clock_stop file function lD pt tD
      (clock_stop file function lC pt tC
        (clock_start file function lB pt tB
          (clock_start file function lA pt tA st))).2
        = (toULL (tD - tA),
           { s_start_times :=
               update2 (get_location file function) (get_thread_id pt) List.tail
                 (update2 (get_location file function) (get_thread_id pt) id
                   (clock_stop file function lC pt tC
                     (clock_start file function lB pt tB
                       (clock_start file function lA pt tA st))).2.s_start_times),
             output := (clock_stop file function lC pt tC
                 (clock_start file function lB pt tB
                   (clock_start file function lA pt tA st))).2.output
               ++ [Report.stop (get_location file function) lA lD
                     (get_thread_id pt) (toULL (tD - tA))] }) := by
    rw [clock_stop_spec, hfind3]
  refine ⟨?_, hfind3, ?_, ?_⟩
  · rw [hstop1]
  · rw [hstop2]
    simp only
    rw [hstop1]
    simp
  · rw [hstop2]
    simp only
    rw [find2_update2_self, find2_update2_self, hfind3]
    rfl

/-- C8: no operation removes registry entries.  A key present at either
level before a start or a stop is present after it; a stop removes at most
the popped Timer (every stack is a suffix of its former value, map entries
included); and a measure (`clock_func`) never touches the registry. -/
theorem registry_entries_persist (file function : String) (line : Int)
    (pt : Option Int) (now end_ : Int) (st : ClockState) (L : String) (T : Int)
    (hL : hasLocation L st.s_start_times = true)
    (hT : hasThread L T st.s_start_times = true) :
    hasLocation L (clock_start file function line pt now st).s_start_times = true
      ∧ hasThread L T (clock_start file function line pt now st).s_start_times = true
      ∧ hasLocation L (clock_stop file function line pt end_ st).2.s_start_times = true
      ∧ hasThread L T (clock_stop file function line pt end_ st).2.s_start_times = true
      ∧ (∀ (L' : String) (T' : Int),
          find2 L' T' (clock_stop file function line pt end_ st).2.s_start_times
            <:+ find2 L' T' st.s_start_times)
      ∧ (∀ (γ β ε : Type) (c : γ → Except ε β) (f_name : String) (params : γ)
            (t_start t_end : Int) (d : Nat) (st' : ClockState),
          clock_func c file line f_name params pt t_start t_end st
              = Except.ok (d, st')
            → st'.s_start_times = st.s_start_times) := by
  refine ⟨?_, ?_, ?_, ?_, ?_, ?_⟩
  · unfold clock_start
    simp only
    exact hasLocation_update2 _ _ _ _ _ (hasLocation_update2 _ _ _ _ _ hL)
  · unfold clock_start
    simp only
    exact hasThread_update2 _ _ _ _ _ _ (hasThread_update2 _ _ _ _ _ _ hT)
  · rcases clock_stop_reg_cases file function line pt end_ st with h | h
    · rw [h]
      exact hasLocation_update2 _ _ _ _ _ hL
    · rw [h]
      exact hasLocation_update2 _ _ _ _ _ (hasLocation_update2 _ _ _ _ _ hL)
  · rcases clock_stop_reg_cases file function line pt end_ st with h | h
    · rw [h]
      exact hasThread_update2 _ _ _ _ _ _ hT
    · rw [h]
      exact hasThread_update2 _ _ _ _ _ _ (hasThread_update2 _ _ _ _ _ _ hT)
  · intro L' T'
    exact find2_clock_stop_suffix file function line pt end_ st L' T'
  · intro γ β ε c f_name params t_start t_end d st' heq
    unfold clock_func at heq
    cases hc : c params with
    | error e =>
        rw [hc] at heq
        simp [Except.map] at heq
    | ok v =>
        rw [hc] at heq
        simp only [Except.map, Except.ok.injEq, Prod.mk.injEq] at heq
        rw [← heq.2]

theorem registry_entries_persist_witness :
    hasLocation "k" (ClockState.mk [("k", [(0, [])])] []).s_start_times = true
      ∧ hasThread "k" 0 (ClockState.mk [("k", [(0, [])])] []).s_start_times = true
      ∧ (hasLocation "k" (clock_start "a.cpp" "int main()" 10 none 50
            (ClockState.mk [("k", [(0, [])])] [])).s_start_times = true
          ∧ hasThread "k" 0 (clock_start "a.cpp" "int main()" 10 none 50
              (ClockState.mk [("k", [(0, [])])] [])).s_start_times = true
          ∧ hasLocation "k" (clock_stop "a.cpp" "int main()" 10 none 60
              (ClockState.mk [("k", [(0, [])])] [])).2.s_start_times = true
          ∧ hasThread "k" 0 (clock_stop "a.cpp" "int main()" 10 none 60
              (ClockState.mk [("k", [(0, [])])] [])).2.s_start_times = true
          ∧ (∀ (L' : String) (T' : Int),
              find2 L' T' (clock_stop "a.cpp" "int main()" 10 none 60
                  (ClockState.mk [("k", [(0, [])])] [])).2.s_start_times
                <:+ find2 L' T' (ClockState.mk [("k", [(0, [])])] []).s_start_times)
          ∧ (∀ (γ β ε : Type) (c : γ → Except ε β) (f_name : String) (params : γ)
                (t_start t_end : Int) (d : Nat) (st' : ClockState),
              clock_func c "a.cpp" 10 f_name params none t_start t_end
                  (ClockState.mk [("k", [(0, [])])] [])
                  = Except.ok (d, st')
                → st'.s_start_times
                    = (ClockState.mk [("k", [(0, [])])] []).s_start_times)) :=
  ⟨by decide, by decide,
   registry_entries_persist "a.cpp" "int main()" 10 none 50 60
     (ClockState.mk [("k", [(0, [])])] []) "k" 0 (by decide) (by decide)⟩

/-- C6: an exception raised by the callable measured by `clock_func`
propagates to the caller unmodified and no report is emitted for that
invocation; conversely, any successful measure means the callable returned
normally, and exactly one report line was emitted. -/
theorem clock_func_exception {γ β ε : Type} (c : γ → Except ε β)
    (file : String) (line : Int) (f_name : String) (params : γ)
    (pt : Option Int) (t_start t_end : Int) (st : ClockState) :
    (∀ e : ε, c params = Except.error e
        → clock_func c file line f_name params pt t_start t_end st
            = Except.error e)
      ∧ (∀ (d : Nat) (st' : ClockState),
          clock_func c file line f_name params pt t_start t_end st
              = Except.ok (d, st')
            → (∃ v, c params = Except.ok v)
              ∧ st'.output = st.output
                  ++ [Report.func (get_location file
                        (if strchr_found f_name '[' then "lambda()" else f_name))
                      line (get_thread_id pt) d]) := by
  constructor
  · intro e he
    unfold clock_func
    rw [he]
    rfl
  · intro d st' heq
    unfold clock_func at heq
    cases hc : c params with
    | error e =>
        rw [hc] at heq
        simp [Except.map] at heq
    | ok v =>
        rw [hc] at heq
        simp only [Except.map, Except.ok.injEq, Prod.mk.injEq] at heq
        refine ⟨⟨v, rfl⟩, ?_⟩
        rw [← heq.2, ← heq.1]

theorem clock_func_exception_witness :
    clock_func (fun (_ : Unit) => (Except.error 7 : Except Nat Nat))
        "m.cpp" 31 "foo()" () none 5 9 (ClockState.mk [] [])
      = Except.error 7 :=
  (clock_func_exception (fun (_ : Unit) => (Except.error 7 : Except Nat Nat))
    "m.cpp" 31 "foo()" () none 5 9 (ClockState.mk [] [])).1 7 rfl

/-- C7: `clock_func` decides anonymity of the callable by scanning the
display name for the marker character, reporting under call-site
identity `get_location file "lambda()"` when the marker occurs in
`f_name` and `get_location file f_name` otherwise. -/
theorem clock_func_lambda_heuristic {γ β ε : Type} (c : γ → Except ε β)
    (file : String) (line : Int) (f_name : String) (params : γ)
    (pt : Option Int) (t_start t_end : Int) (st : ClockState) (v : β)
    (h : c params = Except.ok v) :
    clock_func c file line f_name params pt t_start t_end st
      = Except.ok (toULL (t_end - t_start),
          { st with output := st.output
              ++ [Report.func (get_location file
                    (if strchr_found f_name '[' then "lambda()" else f_name))
                  line (get_thread_id pt) (toULL (t_end - t_start))] }) := by
  unfold clock_func
  rw [h]
  rfl

theorem clock_func_lambda_heuristic_witness :
    clock_func (fun (_ : Unit) => (Except.ok 0 : Except Unit Nat))
        "m.cpp" 33 "[&]()" () none 5 9 (ClockState.mk [] [])
      = Except.ok (4, ClockState.mk []
          [Report.func (get_location "m.cpp" "lambda()") 33 0 4]) := by
  rw [clock_func_lambda_heuristic (fun (_ : Unit) => (Except.ok 0 : Except Unit Nat))
    "m.cpp" 33 "[&]()" () none 5 9 (ClockState.mk [] []) 0 rfl]
  rfl

/-- C10: `clock_func` discards the callable's return value: two callables
that both return normally produce identical results (same duration, same
state, same reports) whatever and of whatever type their return values
are, and the value handed back is the elapsed duration alone. -/
theorem clock_func_discards_result {γ₁ β₁ γ₂ β₂ ε : Type}
    (c₁ : γ₁ → Except ε β₁) (c₂ : γ₂ → Except ε β₂)
    (file : String) (line : Int) (f_name : String) (p₁ : γ₁) (p₂ : γ₂)
    (pt : Option Int) (t_start t_end : Int) (st : ClockState)
    (v₁ : β₁) (v₂ : β₂)
    (h₁ : c₁ p₁ = Except.ok v₁) (h₂ : c₂ p₂ = Except.ok v₂) :
    clock_func c₁ file line f_name p₁ pt t_start t_end st
        = clock_func c₂ file line f_name p₂ pt t_start t_end st
      ∧ (clock_func c₁ file line f_name p₁ pt t_start t_end st).map Prod.fst
          = Except.ok (toULL (t_end - t_start)) := by
  unfold clock_func
  rw [h₁, h₂]
  exact ⟨rfl, rfl⟩

theorem clock_func_discards_result_witness :
    clock_func (fun (_ : Unit) => (Except.ok 37 : Except Unit Nat))
        "m.cpp" 31 "foo()" () none 5 9 (ClockState.mk [] [])
        = clock_func (fun (_ : Unit) => (Except.ok "hi" : Except Unit String))
            "m.cpp" 31 "foo()" () none 5 9 (ClockState.mk [] [])
      ∧ (clock_func (fun (_ : Unit) => (Except.ok 37 : Except Unit Nat))
            "m.cpp" 31 "foo()" () none 5 9 (ClockState.mk [] [])).map Prod.fst
          = Except.ok (toULL (9 - 5)) :=
  clock_func_discards_result (fun (_ : Unit) => (Except.ok 37 : Except Unit Nat))
    (fun (_ : Unit) => (Except.ok "hi" : Except Unit String))
    "m.cpp" 31 "foo()" () () none 5 9 (ClockState.mk [] []) 37 "hi" rfl rfl
